import Mathlib

/-!
Verification development for the Satviz repository (SatMap satellite
communication simulator).

The embedding covers:
* the Vector/Geometry kernel of `src/SatMap-main/satmap/src/simulationEngine.ts`
  (the geometry module concatenated after the engine: `dotProduct`, `magnitude`,
  `normalize`, `isPointInCone`, `createIridiumCone`,
  `createHorizonAlignedAntennaCones`, `isLineOfSightClear`), embedded over `ℝ`
  (JS `number` arithmetic is modelled by exact real arithmetic, `Math.sqrt` by
  `Real.sqrt`, `Math.acos` by `Real.arccos`);
* the sun-synchronous inclination band selection of
  `createTLEStringsFromBeaconParams` in
  `src/SatMap-main/satmap/src/utils/orbitCalculation.ts`;
* the simulation engine loop `runSimulation` of `simulationEngine.ts`.
  Timestamps (JS epoch milliseconds) and durations are embedded as `ℚ`.
  SGP4 propagation (`satellite.js`, wrapped by `propagateSatellite` in
  `orbitCalculation.ts`) is an external capability of the repository; it is
  modelled as an oracle `ℚ → Option (PropResult V G)` returning `none` exactly
  when the wrapper returns `null` (propagation failure / non-finite output).
  The engine loop is parametric in the per-pair link decision `link`
  (the code of `canCommunicate` below instantiates it with the cone and
  occultation geometry of the source) and in the position payload types `V`
  (ECI vectors) and `G` (geodetic positions), which the loop only stores.
-/

namespace Satviz

/-! ## Vector/Geometry kernel (simulationEngine.ts, geometry module) -/

/-- `CartesianVector {x,y,z}` from `types/orbit.ts`; also the `Point` interface
of the geometry module (identical shape). -/
structure CartesianVector where
  x : ℝ
  y : ℝ
  z : ℝ

/-- `Point` of the geometry module: same shape as `CartesianVector`. -/
abbrev Point := CartesianVector

/-- `dotProduct` of the geometry module. -/
def dotProduct (v1 v2 : CartesianVector) : ℝ :=
  v1.x * v2.x + v1.y * v2.y + v1.z * v2.z

/-- `magnitude` of the geometry module. -/
noncomputable def magnitude (v : CartesianVector) : ℝ :=
  Real.sqrt (v.x * v.x + v.y * v.y + v.z * v.z)

/-- `normalize` of the geometry module: a near-zero vector (magnitude below
`1e-9`) yields the zero vector. -/
noncomputable def normalize (v : CartesianVector) : CartesianVector :=
  let mag := magnitude v
  if mag < 1e-9 then ⟨0, 0, 0⟩
  else ⟨v.x / mag, v.y / mag, v.z / mag⟩

/-- `subtract` of the geometry module (v1 - v2). -/
def subtract (v1 v2 : CartesianVector) : CartesianVector :=
  ⟨v1.x - v2.x, v1.y - v2.y, v1.z - v2.z⟩

/-- `add` of the geometry module. -/
def add (v1 v2 : CartesianVector) : CartesianVector :=
  ⟨v1.x + v2.x, v1.y + v2.y, v1.z + v2.z⟩

/-- `scale` of the geometry module. -/
def scale (v : CartesianVector) (scalar : ℝ) : CartesianVector :=
  ⟨v.x * scalar, v.y * scalar, v.z * scalar⟩

/-- `crossProduct` of the geometry module. -/
def crossProduct (v1 v2 : CartesianVector) : CartesianVector :=
  ⟨v1.y * v2.z - v1.z * v2.y,
   v1.z * v2.x - v1.x * v2.z,
   v1.x * v2.y - v1.y * v2.x⟩

/-- Modelled from the spec: the Earth radius constant `RADIUS_EARTH_KM` is
imported from `constants/physicalConstants`, a module of this repository that
is not present under `src/`; the standard mean Earth radius in km is used.
No claim depends on its numeric value (it only enters as the default sphere
radius of `isLineOfSightClear`). -/
def RADIUS_EARTH_KM : ℝ := 6371

/-- `GeometricCone` of the geometry module. -/
structure GeometricCone where
  tip : CartesianVector
  axis : CartesianVector
  halfAngle : ℝ
  satelliteId : Option String := none

/-- `getNadirVector` of the geometry module. -/
noncomputable def getNadirVector (satelliteEciPos : CartesianVector) : CartesianVector :=
  normalize (scale satelliteEciPos (-1))

open Classical in
/-- `isPointInCone` of the geometry module: clamped `acos` of the dot product
of the cone axis with the normalized tip-to-target vector, compared (`≤`)
against the half-angle.  The debug logging of the source has no effect on the
returned value and is omitted. -/
noncomputable def isPointInCone (targetPointEci : CartesianVector) (cone : GeometricCone) : Bool :=
  let vectorToTarget := subtract targetPointEci cone.tip
  let normalizedVectorToTarget := normalize vectorToTarget
  let cosAngle := dotProduct cone.axis normalizedVectorToTarget
  let clampedCosAngle := max (-1) (min 1 cosAngle)
  let angleToTargetRadians := Real.arccos clampedCosAngle
  decide (angleToTargetRadians ≤ cone.halfAngle)

/-- `createIridiumCone` of the geometry module. -/
noncomputable def createIridiumCone (iridiumEciPos : CartesianVector)
    (halfAngleRadians : ℝ) (satelliteId : Option String) : GeometricCone :=
  { tip := iridiumEciPos
    axis := getNadirVector iridiumEciPos
    halfAngle := halfAngleRadians
    satelliteId := satelliteId }

open Classical in
/-- `createHorizonAlignedAntennaCones` of the geometry module: two cones along
the forward/backward projection of the velocity onto the local horizontal
plane, with the arbitrary-horizontal fallback for degenerate velocity and the
empty-list fallbacks of the source. -/
noncomputable def createHorizonAlignedAntennaCones (satelliteEciPos : CartesianVector)
    (satelliteEciVelocity : CartesianVector) (halfAngleRadians : ℝ)
    (entityId : Option String) : List GeometricCone :=
  let zenithVector := normalize satelliteEciPos
  if magnitude zenithVector < 1e-9 then []
  else
    let velocityComponentParallelToZenith :=
      scale zenithVector (dotProduct satelliteEciVelocity zenithVector)
    let horizontalVelocityComponent0 :=
      subtract satelliteEciVelocity velocityComponentParallelToZenith
    let magHorizontalVelocity := magnitude horizontalVelocityComponent0
    let fallback : Option CartesianVector :=
      if magHorizontalVelocity < 1e-9 then
        let globalX : CartesianVector := ⟨1, 0, 0⟩
        let globalY : CartesianVector := ⟨0, 1, 0⟩
        let arbitraryHorizontalDir :=
          if |dotProduct zenithVector globalX| < 0.99 then
            normalize (crossProduct zenithVector globalX)
          else
            normalize (crossProduct zenithVector globalY)
        if magnitude arbitraryHorizontalDir < 1e-9 then none
        else some arbitraryHorizontalDir
      else some horizontalVelocityComponent0
    match fallback with
    | none => []
    | some horizontalVelocityComponent =>
      let antennaAxis1 := normalize horizontalVelocityComponent
      let antennaAxis2 := scale antennaAxis1 (-1)
      let label := fun (suf : String) =>
        match entityId with
        | some p => some (p ++ suf)
        | none => some ("UnknownEntity" ++ suf)
      [{ tip := satelliteEciPos, axis := antennaAxis1, halfAngle := halfAngleRadians,
         satelliteId := label "-Ant1" },
       { tip := satelliteEciPos, axis := antennaAxis2, halfAngle := halfAngleRadians,
         satelliteId := label "-Ant2" }]

/-! ### Ray-sphere occultation test `isLineOfSightClear`

The local constants of the source (`d`, `f`, `a`, `b`, `c`, `discriminant`,
`t1`, `t2`, `p1DistSq`, `p2DistSq`, `rSq`) are factored into named
definitions so that theorems can speak about them. -/

/-- `a = d·d` where `d = point2 - point1` (isLineOfSightClear). -/
def losCoeffA (p1 p2 : Point) : ℝ :=
  (p2.x - p1.x) * (p2.x - p1.x) + (p2.y - p1.y) * (p2.y - p1.y) +
    (p2.z - p1.z) * (p2.z - p1.z)

/-- `b = 2 (f·d)` where `f = point1 - earthCenter` (isLineOfSightClear). -/
def losCoeffB (p1 p2 earthCenter : Point) : ℝ :=
  2 * ((p1.x - earthCenter.x) * (p2.x - p1.x) + (p1.y - earthCenter.y) * (p2.y - p1.y) +
    (p1.z - earthCenter.z) * (p2.z - p1.z))

/-- `p1DistSq`/`p2DistSq` of the source: squared distance from a point to the
sphere center. -/
def distSqFromCenter (p earthCenter : Point) : ℝ :=
  (p.x - earthCenter.x) * (p.x - earthCenter.x) + (p.y - earthCenter.y) * (p.y - earthCenter.y) +
    (p.z - earthCenter.z) * (p.z - earthCenter.z)

/-- `c = f·f - r²` (isLineOfSightClear). -/
def losCoeffC (p1 earthCenter : Point) (earthRadius : ℝ) : ℝ :=
  distSqFromCenter p1 earthCenter - earthRadius * earthRadius

/-- `discriminant = b² - 4ac` (isLineOfSightClear). -/
def losDiscriminant (p1 p2 earthCenter : Point) (earthRadius : ℝ) : ℝ :=
  losCoeffB p1 p2 earthCenter * losCoeffB p1 p2 earthCenter -
    4 * losCoeffA p1 p2 * losCoeffC p1 earthCenter earthRadius

/-- `t1 = (-b - sqrt(discriminant)) / (2a)` (isLineOfSightClear). -/
noncomputable def losT1 (p1 p2 earthCenter : Point) (earthRadius : ℝ) : ℝ :=
  (-(losCoeffB p1 p2 earthCenter) - Real.sqrt (losDiscriminant p1 p2 earthCenter earthRadius)) /
    (2 * losCoeffA p1 p2)

/-- `t2 = (-b + sqrt(discriminant)) / (2a)` (isLineOfSightClear). -/
noncomputable def losT2 (p1 p2 earthCenter : Point) (earthRadius : ℝ) : ℝ :=
  (-(losCoeffB p1 p2 earthCenter) + Real.sqrt (losDiscriminant p1 p2 earthCenter earthRadius)) /
    (2 * losCoeffA p1 p2)

open Classical in
/-- Endpoint decision table of `isLineOfSightClear`, reached when an
intersection parameter lies on the segment: the three `if` statements on
`p1DistSq`, `p2DistSq`, `rSq` and the blocked fallback. -/
noncomputable def losInnerTable (p1DistSq p2DistSq rSq : ℝ) : Bool :=
  if (p1DistSq < rSq ∧ p2DistSq > rSq) ∨ (p1DistSq > rSq ∧ p2DistSq < rSq) then false
  else if p1DistSq > rSq ∧ p2DistSq > rSq then false
  else if p1DistSq ≤ rSq ∧ p2DistSq ≤ rSq then true
  else false

open Classical in
/-- `isLineOfSightClear` of the geometry module (identical code also in
`src/main/src/utils/geometry.ts`): quadratic segment-sphere intersection,
clear when the discriminant is negative, clear when neither root lies in
`[0,1]`, otherwise the endpoint decision table. -/
noncomputable def isLineOfSightClear (point1 point2 : Point)
    (earthCenter : Point := ⟨0, 0, 0⟩) (earthRadius : ℝ := RADIUS_EARTH_KM) : Bool :=
  if losDiscriminant point1 point2 earthCenter earthRadius < 0 then true
  else
    if (losT1 point1 point2 earthCenter earthRadius ≥ 0 ∧
          losT1 point1 point2 earthCenter earthRadius ≤ 1) ∨
        (losT2 point1 point2 earthCenter earthRadius ≥ 0 ∧
          losT2 point1 point2 earthCenter earthRadius ≤ 1) then
      losInnerTable (distSqFromCenter point1 earthCenter) (distSqFromCenter point2 earthCenter)
        (earthRadius * earthRadius)
    else true

/-! ## Beacon Orbit Synthesizer: sun-synchronous inclination band
(`createTLEStringsFromBeaconParams`, orbitCalculation.ts lines 460-506) -/

/-- Sun-synchronous branch of `createTLEStringsFromBeaconParams` restricted to
its validation and inclination output: `null` (here `none`) when
`altitude <= 0` or the local solar time at the descending node is outside
`[0, 24)`; otherwise the three-band inclination: start from `98.6`, override
with `97.4` when `altitude < 500`, else with `99.5` when `altitude > 1000`. -/
def ssoSynthInclination (altitude localSolarTimeAtDescendingNode : ℚ) : Option ℚ :=
  if altitude ≤ 0 then none
  else if localSolarTimeAtDescendingNode < 0 ∨ localSolarTimeAtDescendingNode ≥ 24 then none
  else some (if altitude < 500 then 97.4 else if altitude > 1000 then 99.5 else 98.6)

/-! ## Simulation Engine (`runSimulation`, simulationEngine.ts)

State machine of the main loop.  `V` is the payload type of ECI
position/velocity vectors and `G` of geodetic positions: the loop itself only
stores these values (into tracks and handshake records) and feeds them to the
link decision; the geometric instantiation is `V := CartesianVector`,
`G := GeodeticPosition` with `link := canCommunicate cfg`. -/

/-- `GeodeticPosition` of `types/orbit.ts`. -/
structure GeodeticPosition where
  latitude : ℝ
  longitude : ℝ
  altitude : ℝ

/-- Result of one successful `propagateSatellite` call (orbitCalculation.ts):
ECI position, ECI velocity and geodetic position.  The wrapper returns `null`
(modelled as `none` in the oracle type) on propagation failure or non-finite
output. -/
structure PropResult (V G : Type) where
  positionEci : V
  velocityEci : V
  positionGeodetic : G

/-- A propagation oracle: the external SGP4 propagator specialised to one
satellite record, queried at a timestamp (epoch milliseconds). -/
abbrev PropOracle (V G : Type) := ℚ → Option (PropResult V G)

/-- `SatellitePosition` of `types/orbit.ts` (one track entry). -/
structure SatellitePosition (V G : Type) where
  timestamp : ℚ
  positionEci : V
  velocityEci : V
  positionGeodetic : G

/-- `Handshake` of `types/orbit.ts`. -/
structure Handshake (G : Type) where
  timestamp : ℚ
  iridiumSatelliteId : String
  beaconPosition : G
  iridiumPosition : G

/-- `BlackoutPeriod` of `types/orbit.ts`: `duration` is in seconds. -/
structure BlackoutPeriod where
  startTime : ℚ
  endTime : ℚ
  duration : ℚ

/-- `handshakeMode` of `SimulationConfig`. -/
inductive HandshakeMode where
  | oneWay
  | biDirectional

/-- The fields of `SimulationConfig` that the engine loop and the link
geometry consume.  Beacon orbit parameters and the Iridium dataset selection
only feed the initialization phase, which is modelled by the `Option`/list
arguments of `runSimulation`. -/
structure SimulationConfig where
  iridiumFovDeg : ℝ
  beaconFovDeg : ℝ
  simulationDurationHours : ℚ
  simulationTimeStepSec : ℚ
  handshakeMode : HandshakeMode

open Classical in
/-- Per-pair link decision of the loop body (simulationEngine.ts lines
170-219): the mode-dependent cone test followed, when it passes, by the Earth
occultation test `isLineOfSightClear` with its default center and radius. -/
noncomputable def canCommunicate (config : SimulationConfig) (iridiumSatId : String)
    (beaconCurrentPosEci beaconCurrentVelEci iridiumCurrentPosEci iridiumCurrentVelEci :
      CartesianVector) : Bool :=
  let iridiumNadirHalfAngleRad := config.iridiumFovDeg * (Real.pi / 180) / 2
  let beaconHorizonHalfAngleRad := config.beaconFovDeg * (Real.pi / 180) / 2
  let iridiumHorizonScanningHalfAngleRad := config.iridiumFovDeg * (Real.pi / 180) / 2
  let geomOk :=
    match config.handshakeMode with
    | HandshakeMode.oneWay =>
      let iridiumNadirCone :=
        createIridiumCone iridiumCurrentPosEci iridiumNadirHalfAngleRad (some iridiumSatId)
      isPointInCone beaconCurrentPosEci iridiumNadirCone
    | HandshakeMode.biDirectional =>
      let iridiumHorizonCones :=
        createHorizonAlignedAntennaCones iridiumCurrentPosEci iridiumCurrentVelEci
          iridiumHorizonScanningHalfAngleRad (some (iridiumSatId ++ "-HScan"))
      let beaconHorizonCones :=
        createHorizonAlignedAntennaCones beaconCurrentPosEci beaconCurrentVelEci
          beaconHorizonHalfAngleRad (some "Beacon-HScan")
      let beaconInIridiumHorizonCone :=
        iridiumHorizonCones.any (fun iCone => isPointInCone beaconCurrentPosEci iCone)
      let iridiumInBeaconHorizonCone :=
        if beaconInIridiumHorizonCone then
          beaconHorizonCones.any (fun bCone => isPointInCone iridiumCurrentPosEci bCone)
        else false
      beaconInIridiumHorizonCone && iridiumInBeaconHorizonCone
  if geomOk then isLineOfSightClear beaconCurrentPosEci iridiumCurrentPosEci else false

/-- Mutable state of the main loop (simulationEngine.ts lines 90-104), minus
`currentTime` (driven by the instant list) and the logging-only step counter. -/
structure SimState (V G : Type) where
  totalHandshakes : ℕ
  handshakeLog : List (Handshake G)
  blackoutPeriods : List BlackoutPeriod
  beaconTrack : List (SatellitePosition V G)
  iridiumTracks : String → List (SatellitePosition V G)
  activeLinksLog : List (Finset String)
  previousConnectedIridiumSatIds : Finset String
  currentBlackout : Option ℚ

/-- Initial loop state. -/
def initState (V G : Type) : SimState V G :=
  { totalHandshakes := 0
    handshakeLog := []
    blackoutPeriods := []
    beaconTrack := []
    iridiumTracks := fun _ => []
    activeLinksLog := []
    previousConnectedIridiumSatIds := ∅
    currentBlackout := none }

/-- Per-Iridium-satellite accumulator of one timestep (simulationEngine.ts
lines 143-235): the step's connected-id set, the
`beaconIsInCommunicationThisStep` flag, and the handshake/track state
threaded through the satellite loop. -/
structure StepAcc (V G : Type) where
  connected : Finset String
  inComm : Bool
  totalHandshakes : ℕ
  handshakeLog : List (Handshake G)
  iridiumTracks : String → List (SatellitePosition V G)

/-- Body of the per-satellite loop (simulationEngine.ts lines 146-235) for one
satellite `sat = (id, oracle)`: skip the satellite when its propagation fails;
otherwise append its track entry, evaluate the link, and on a link that is
active now but absent from `previousConnectedIridiumSatIds` append a handshake
record and bump the counter. -/
def satStep {V G : Type} (link : String → V → V → V → V → Bool)
    (previousConnectedIridiumSatIds : Finset String) (t : ℚ) (b : PropResult V G)
    (acc : StepAcc V G) (sat : String × PropOracle V G) : StepAcc V G :=
  match sat.2 t with
  | none => acc
  | some ir =>
    let acc1 : StepAcc V G :=
      { acc with iridiumTracks := fun id =>
          if id = sat.1 then
            acc.iridiumTracks id ++
              [⟨t, ir.positionEci, ir.velocityEci, ir.positionGeodetic⟩]
          else acc.iridiumTracks id }
    if link sat.1 b.positionEci b.velocityEci ir.positionEci ir.velocityEci then
      let acc2 : StepAcc V G :=
        { acc1 with inComm := true, connected := insert sat.1 acc1.connected }
      if sat.1 ∈ previousConnectedIridiumSatIds then acc2
      else
        { acc2 with
          totalHandshakes := acc2.totalHandshakes + 1
          handshakeLog := acc2.handshakeLog ++
            [⟨t, sat.1, b.positionGeodetic, ir.positionGeodetic⟩] }
    else acc1

/-- One iteration of the main loop (simulationEngine.ts lines 112-257) at
instant `t`: when Beacon propagation fails the whole timestep is skipped (the
state is returned unchanged; time advances externally); otherwise the Beacon
track entry is appended, every Iridium satellite is processed, the
previous-connected set and the active-links log are updated, and the global
blackout state machine advances. -/
def stepSim {V G : Type} (link : String → V → V → V → V → Bool)
    (iridiumSats : List (String × PropOracle V G)) (beaconProp : PropOracle V G)
    (s : SimState V G) (t : ℚ) : SimState V G :=
  match beaconProp t with
  | none => s
  | some b =>
    let a := iridiumSats.foldl (satStep link s.previousConnectedIridiumSatIds t b)
      { connected := ∅
        inComm := false
        totalHandshakes := s.totalHandshakes
        handshakeLog := s.handshakeLog
        iridiumTracks := s.iridiumTracks }
    let blackoutNext : List BlackoutPeriod × Option ℚ :=
      if a.inComm = false then
        match s.currentBlackout with
        | none => (s.blackoutPeriods, some t)
        | some st => (s.blackoutPeriods, some st)
      else
        match s.currentBlackout with
        | some st => (s.blackoutPeriods ++ [⟨st, t, (t - st) / 1000⟩], none)
        | none => (s.blackoutPeriods, none)
    { totalHandshakes := a.totalHandshakes
      handshakeLog := a.handshakeLog
      blackoutPeriods := blackoutNext.1
      beaconTrack := s.beaconTrack ++
        [⟨t, b.positionEci, b.velocityEci, b.positionGeodetic⟩]
      iridiumTracks := a.iridiumTracks
      activeLinksLog := s.activeLinksLog ++ [a.connected]
      previousConnectedIridiumSatIds := a.connected
      currentBlackout := blackoutNext.2 }

/-- The instants iterated by the main loop: `start + k * stepMs` for
`k = 0, 1, ...` while `current <= start + durationMs` (inclusive final
boundary).  For a non-positive timestep the JS loop would not terminate; the
embedding iterates no step in that case. -/
def simInstants (startMs durationMs timeStepMs : ℚ) : List ℚ :=
  if 0 < timeStepMs then
    (List.range (⌊durationMs / timeStepMs⌋ + 1).toNat).map
      (fun (k : ℕ) => startMs + (k : ℚ) * timeStepMs)
  else []

/-- `SimulationResults` of `types/orbit.ts`. -/
structure SimulationResults (V G : Type) where
  totalHandshakes : ℕ
  handshakeLog : List (Handshake G)
  activeLinksLog : List (Finset String)
  blackoutPeriods : List BlackoutPeriod
  totalBlackoutDuration : ℚ
  averageBlackoutDuration : ℚ
  numberOfBlackouts : ℕ
  beaconTrack : List (SatellitePosition V G)
  iridiumTracks : String → List (SatellitePosition V G)

/-- The loop-and-aggregation part of `runSimulation` (simulationEngine.ts
lines 78-287), after successful initialization: run the loop over all
instants, close a still-open blackout using the time after the loop's last
iterated instant, and assemble the final aggregates. -/
def runSimulationWith {V G : Type} (link : String → V → V → V → V → Bool)
    (beaconProp : PropOracle V G) (iridiumSats : List (String × PropOracle V G))
    (config : SimulationConfig) (startMs : ℚ) : SimulationResults V G :=
  let simulationDurationMs := config.simulationDurationHours * 60 * 60 * 1000
  let timeStepMs := config.simulationTimeStepSec * 1000
  let instants := simInstants startMs simulationDurationMs timeStepMs
  let s := instants.foldl (stepSim link iridiumSats beaconProp) (initState V G)
  let currentTimeAfterLoop := startMs + (instants.length : ℚ) * timeStepMs
  let blackoutPeriods :=
    match s.currentBlackout with
    | none => s.blackoutPeriods
    | some st => s.blackoutPeriods ++
        [⟨st, currentTimeAfterLoop, (currentTimeAfterLoop - st) / 1000⟩]
  let totalBlackoutDuration := blackoutPeriods.foldl (fun acc p => acc + p.duration) 0
  let numberOfBlackouts : ℕ := blackoutPeriods.length
  { totalHandshakes := s.totalHandshakes
    handshakeLog := s.handshakeLog
    activeLinksLog := s.activeLinksLog
    blackoutPeriods := blackoutPeriods
    totalBlackoutDuration := totalBlackoutDuration
    averageBlackoutDuration :=
      if 0 < numberOfBlackouts then totalBlackoutDuration / (numberOfBlackouts : ℚ) else 0
    numberOfBlackouts := numberOfBlackouts
    beaconTrack := s.beaconTrack
    iridiumTracks := s.iridiumTracks }

/-- `TLE` record of `types/orbit.ts` (payload irrelevant to the engine beyond
the name used as the satellite id). -/
structure TLE where
  name : String
  line1 : String
  line2 : String

/-- `runSimulation` of simulationEngine.ts including its initialization phase
(lines 37-76): abort with the source's error when the Beacon record could not
be synthesized/initialized (`beaconSatRec = none`), when the TLE fetch yielded
no records, or when no fetched TLE survived `initializeSatrecFromTLE` (the
`initTLE` oracle models that external initialization, `none` = rejected);
otherwise run the loop.  Each usable record is identified by its TLE name and
propagated through the external SGP4 oracle `oracleOf`. -/
def runSimulation {V G : Type} (link : String → V → V → V → V → Bool)
    (beaconSatRec : Option (PropOracle V G)) (iridiumTLEs : List TLE)
    (initTLE : TLE → Option (PropOracle V G)) (config : SimulationConfig)
    (startMs : ℚ) : Except String (SimulationResults V G) :=
  match beaconSatRec with
  | none => Except.error "Failed to initialize Beacon satellite record."
  | some beaconProp =>
    if iridiumTLEs.isEmpty then
      Except.error "No Iridium TLEs fetched."
    else
      let iridiumSatRecs := iridiumTLEs.filterMap
        (fun tle => (initTLE tle).map (fun rec => (tle.name, rec)))
      if iridiumSatRecs.isEmpty then
        Except.error "Failed to initialize any Iridium SatRecs."
      else
        Except.ok (runSimulationWith link beaconProp iridiumSatRecs config startMs)

/-- Whether satellite `sat` propagates at `t` and its link with the Beacon
(propagated to `b`) passes the link decision. -/
def linkNow {V G : Type} (link : String → V → V → V → V → Bool) (t : ℚ)
    (b : PropResult V G) (sat : String × PropOracle V G) : Bool :=
  match sat.2 t with
  | none => false
  | some ir => link sat.1 b.positionEci b.velocityEci ir.positionEci ir.velocityEci

/-- The `connected`-set effect of one satellite of the loop body: skip on
propagation failure, insert the id when the link passes. -/
def connectedFoldStep {V G : Type} (link : String → V → V → V → V → Bool) (t : ℚ)
    (b : PropResult V G) (acc : Finset String) (sat : String × PropOracle V G) :
    Finset String :=
  match sat.2 t with
  | none => acc
  | some ir =>
    if link sat.1 b.positionEci b.velocityEci ir.positionEci ir.velocityEci then
      insert sat.1 acc
    else acc

/-- The set of Iridium ids whose link is active at instant `t`: empty when the
Beacon does not propagate at `t`; otherwise the ids of the satellites that
propagate at `t` and whose link decision passes (the `connected` projection of
the satellite loop). -/
def activeIdsAt {V G : Type} (link : String → V → V → V → V → Bool)
    (iridiumSats : List (String × PropOracle V G)) (beaconProp : PropOracle V G)
    (t : ℚ) : Finset String :=
  match beaconProp t with
  | none => ∅
  | some b => iridiumSats.foldl (connectedFoldStep link t b) ∅

/-- The handshake record emitted for satellite `sat` at instant `t` (Beacon
propagated to `b`, previous-step active set `prev`): a record exactly when the
satellite propagates, the link passes, and the id is not in `prev`
(the inactive-to-active edge of the per-pair state machine). -/
def hsRecord {V G : Type} (link : String → V → V → V → V → Bool)
    (prev : Finset String) (t : ℚ) (b : PropResult V G)
    (sat : String × PropOracle V G) : Option (Handshake G) :=
  match sat.2 t with
  | none => none
  | some ir =>
    if link sat.1 b.positionEci b.velocityEci ir.positionEci ir.velocityEci = true ∧
        sat.1 ∉ prev then
      some ⟨t, sat.1, b.positionGeodetic, ir.positionGeodetic⟩
    else none

/-- `runSimulation` instantiated with the concrete geometry of the source:
the link decision is `canCommunicate config` (cone tests plus occultation)
over real ECI vectors and geodetic positions. -/
noncomputable def runSimulationSatCore
    (beaconSatRec : Option (PropOracle CartesianVector GeodeticPosition))
    (iridiumTLEs : List TLE)
    (initTLE : TLE → Option (PropOracle CartesianVector GeodeticPosition))
    (config : SimulationConfig) (startMs : ℚ) :
    Except String (SimulationResults CartesianVector GeodeticPosition) :=
  runSimulation (canCommunicate config) beaconSatRec iridiumTLEs initTLE config startMs

/-! ## Theorems -/

/-- Claim C8: for every valid Sun-Synchronous Beacon parameter set
(altitude > 0, local solar time in [0,24)), the synthesized inclination is
determined by a three-band altitude lookup: 97.4° when altitude < 500 km,
99.5° when altitude > 1000 km, and the nominal 98.6° otherwise, including
altitudes of exactly 500 km and exactly 1000 km. -/
theorem claim_C8_sso_inclination_bands (altitude lst : ℚ)
    (hAlt : 0 < altitude) (hLst0 : 0 ≤ lst) (hLst24 : lst < 24) :
    (altitude < 500 → ssoSynthInclination altitude lst = some 97.4) ∧
    (altitude > 1000 → ssoSynthInclination altitude lst = some 99.5) ∧
    (500 ≤ altitude → altitude ≤ 1000 → ssoSynthInclination altitude lst = some 98.6) := by
  unfold ssoSynthInclination
  rw [if_neg (by linarith), if_neg (by push_neg; exact ⟨hLst0, hLst24⟩)]
  refine ⟨fun h => by rw [if_pos h], fun h => ?_, fun h1 h2 => ?_⟩
  · rw [if_neg (by linarith), if_pos h]
  · rw [if_neg (by linarith), if_neg (by linarith)]

/-- Witness for C8 at the band boundary altitude 500 km. -/
theorem claim_C8_sso_inclination_bands_witness :
    ((0 : ℚ) < 500 ∧ (0 : ℚ) ≤ 0 ∧ (0 : ℚ) < 24) ∧
    ssoSynthInclination 500 0 = some 98.6 :=
  ⟨by refine ⟨by norm_num, le_refl 0, by norm_num⟩,
   (claim_C8_sso_inclination_bands 500 0 (by norm_num) (le_refl 0) (by norm_num)).2.2
     (le_refl 500) (by norm_num)⟩

/-- Claim C6: for a cone with unit axis and a target distinct from the tip,
`isPointInCone` returns true iff the clamped-arccos angle between the axis and
the normalized tip-to-target vector is at most the half-angle; a target whose
measured angle equals the half-angle exactly is classified as in the cone. -/
theorem claim_C6_point_in_cone (target : CartesianVector) (cone : GeometricCone)
    (hAxis : magnitude cone.axis = 1) (hTip : target ≠ cone.tip) :
    (isPointInCone target cone = true ↔
      Real.arccos (max (-1) (min 1
        (dotProduct cone.axis (normalize (subtract target cone.tip))))) ≤ cone.halfAngle) ∧
    (Real.arccos (max (-1) (min 1
        (dotProduct cone.axis (normalize (subtract target cone.tip))))) = cone.halfAngle →
      isPointInCone target cone = true) := by
  constructor
  · simp [isPointInCone]
  · intro h
    simp [isPointInCone, h]

/-- Witness for C6: the tip-to-target vector is along the axis, the measured
angle is 0, and the point is inside the half-angle-1 cone. -/
theorem claim_C6_point_in_cone_witness :
    (magnitude (⟨⟨0, 0, 0⟩, ⟨1, 0, 0⟩, 1, none⟩ : GeometricCone).axis = 1 ∧
      (⟨2, 0, 0⟩ : CartesianVector) ≠ (⟨⟨0, 0, 0⟩, ⟨1, 0, 0⟩, 1, none⟩ : GeometricCone).tip) ∧
    isPointInCone ⟨2, 0, 0⟩ ⟨⟨0, 0, 0⟩, ⟨1, 0, 0⟩, 1, none⟩ = true := by
  have hAxis : magnitude (⟨1, 0, 0⟩ : CartesianVector) = 1 := by
    simp [magnitude]
  have hTip : (⟨2, 0, 0⟩ : CartesianVector) ≠ (⟨0, 0, 0⟩ : CartesianVector) := by
    intro h
    have hx := congrArg CartesianVector.x h
    norm_num at hx
  refine ⟨⟨hAxis, hTip⟩, ?_⟩
  apply (claim_C6_point_in_cone ⟨2, 0, 0⟩ ⟨⟨0, 0, 0⟩, ⟨1, 0, 0⟩, 1, none⟩ hAxis hTip).1.mpr
  have hsub : subtract ⟨2, 0, 0⟩ ⟨0, 0, 0⟩ = (⟨2, 0, 0⟩ : CartesianVector) := by
    simp [subtract]
  have hmag : magnitude (⟨2, 0, 0⟩ : CartesianVector) = 2 := by
    simp only [magnitude]
    rw [show ((2 : ℝ) * 2 + 0 * 0 + 0 * 0) = 2 ^ 2 by ring]
    exact Real.sqrt_sq (by norm_num)
  have hnorm : normalize (⟨2, 0, 0⟩ : CartesianVector) = ⟨1, 0, 0⟩ := by
    simp only [normalize, hmag]
    rw [if_neg (by norm_num)]
    norm_num
  have hdot : dotProduct ⟨1, 0, 0⟩
      (normalize (subtract ⟨2, 0, 0⟩ ⟨0, 0, 0⟩)) = 1 := by
    rw [hsub, hnorm]
    simp [dotProduct]
  show Real.arccos (max (-1) (min 1
    (dotProduct ⟨1, 0, 0⟩ (normalize (subtract ⟨2, 0, 0⟩ ⟨0, 0, 0⟩))))) ≤ 1
  rw [hdot]
  rw [show max (-1 : ℝ) (min 1 1) = 1 by norm_num]
  rw [Real.arccos_one]
  norm_num

/-- Claim C1: for distinct endpoints, `isLineOfSightClear` follows the spec's
decision table exactly: clear when the discriminant is negative; clear when
both intersection parameters lie outside [0,1]; and when some intersection
parameter lies in [0,1]: blocked when exactly one endpoint is strictly inside
the sphere and the other strictly outside, blocked when both endpoints are
strictly outside, clear when both endpoints are inside or on the surface, and
blocked in every remaining case. -/
theorem claim_C1_los_decision_table (p1 p2 earthCenter : Point) (earthRadius : ℝ)
    (hne : p1 ≠ p2) :
    (losDiscriminant p1 p2 earthCenter earthRadius < 0 →
      isLineOfSightClear p1 p2 earthCenter earthRadius = true) ∧
    (0 ≤ losDiscriminant p1 p2 earthCenter earthRadius →
      ¬((losT1 p1 p2 earthCenter earthRadius ≥ 0 ∧ losT1 p1 p2 earthCenter earthRadius ≤ 1) ∨
        (losT2 p1 p2 earthCenter earthRadius ≥ 0 ∧ losT2 p1 p2 earthCenter earthRadius ≤ 1)) →
      isLineOfSightClear p1 p2 earthCenter earthRadius = true) ∧
    (0 ≤ losDiscriminant p1 p2 earthCenter earthRadius →
      ((losT1 p1 p2 earthCenter earthRadius ≥ 0 ∧ losT1 p1 p2 earthCenter earthRadius ≤ 1) ∨
        (losT2 p1 p2 earthCenter earthRadius ≥ 0 ∧ losT2 p1 p2 earthCenter earthRadius ≤ 1)) →
      ((distSqFromCenter p1 earthCenter < earthRadius * earthRadius ∧
          distSqFromCenter p2 earthCenter > earthRadius * earthRadius) ∨
        (distSqFromCenter p1 earthCenter > earthRadius * earthRadius ∧
          distSqFromCenter p2 earthCenter < earthRadius * earthRadius) →
        isLineOfSightClear p1 p2 earthCenter earthRadius = false) ∧
      (distSqFromCenter p1 earthCenter > earthRadius * earthRadius ∧
        distSqFromCenter p2 earthCenter > earthRadius * earthRadius →
        isLineOfSightClear p1 p2 earthCenter earthRadius = false) ∧
      (distSqFromCenter p1 earthCenter ≤ earthRadius * earthRadius ∧
        distSqFromCenter p2 earthCenter ≤ earthRadius * earthRadius →
        isLineOfSightClear p1 p2 earthCenter earthRadius = true) ∧
      (¬((distSqFromCenter p1 earthCenter < earthRadius * earthRadius ∧
            distSqFromCenter p2 earthCenter > earthRadius * earthRadius) ∨
          (distSqFromCenter p1 earthCenter > earthRadius * earthRadius ∧
            distSqFromCenter p2 earthCenter < earthRadius * earthRadius)) →
        ¬(distSqFromCenter p1 earthCenter > earthRadius * earthRadius ∧
            distSqFromCenter p2 earthCenter > earthRadius * earthRadius) →
        ¬(distSqFromCenter p1 earthCenter ≤ earthRadius * earthRadius ∧
            distSqFromCenter p2 earthCenter ≤ earthRadius * earthRadius) →
        isLineOfSightClear p1 p2 earthCenter earthRadius = false)) := by
  refine ⟨fun hd => ?_, fun hd hseg => ?_, fun hd hseg => ?_⟩
  · simp only [isLineOfSightClear]
    rw [if_pos hd]
  · simp only [isLineOfSightClear]
    rw [if_neg (not_lt.mpr hd), if_neg hseg]
  · simp only [isLineOfSightClear]
    rw [if_neg (not_lt.mpr hd), if_pos hseg]
    refine ⟨fun hc => ?_, fun hc => ?_, fun hc => ?_, fun h1 h2 h3 => ?_⟩
    · simp only [losInnerTable]
      rw [if_pos hc]
    · simp only [losInnerTable]
      rw [if_neg (by rintro (⟨u, v⟩ | ⟨u, v⟩) <;> [exact absurd hc.1 (not_lt.mpr u.le);
            exact absurd hc.2 (not_lt.mpr v.le)]), if_pos hc]
    · simp only [losInnerTable]
      rw [if_neg (by rintro (⟨u, v⟩ | ⟨u, v⟩) <;> [exact absurd v (not_lt.mpr hc.2);
            exact absurd u (not_lt.mpr hc.1)]),
        if_neg (by rintro ⟨u, v⟩; exact absurd u (not_lt.mpr hc.1)), if_pos hc]
    · simp only [losInnerTable]
      rw [if_neg h1, if_neg h2, if_neg h3]

/-- Witness for C1: a segment along the x-axis with both endpoints strictly
outside the unit sphere punching straight through it is blocked. -/
theorem claim_C1_los_decision_table_witness :
    ((⟨-10, 0, 0⟩ : Point) ≠ (⟨10, 0, 0⟩ : Point)) ∧
    isLineOfSightClear ⟨-10, 0, 0⟩ ⟨10, 0, 0⟩ ⟨0, 0, 0⟩ 1 = false := by
  have hne : (⟨-10, 0, 0⟩ : Point) ≠ (⟨10, 0, 0⟩ : Point) := by
    intro h
    have hx := congrArg CartesianVector.x h
    norm_num at hx
  have hdisc : losDiscriminant ⟨-10, 0, 0⟩ ⟨10, 0, 0⟩ ⟨0, 0, 0⟩ 1 = 1600 := by
    simp only [losDiscriminant, losCoeffA, losCoeffB, losCoeffC, distSqFromCenter]
    norm_num
  have hsqrt : Real.sqrt 1600 = 40 := by
    rw [show (1600 : ℝ) = 40 ^ 2 by norm_num]
    exact Real.sqrt_sq (by norm_num)
  have ht1 : losT1 ⟨-10, 0, 0⟩ ⟨10, 0, 0⟩ ⟨0, 0, 0⟩ 1 = 9 / 20 := by
    rw [losT1, hdisc, hsqrt]
    simp only [losCoeffB, losCoeffA]
    norm_num
  have hd1 : distSqFromCenter (⟨-10, 0, 0⟩ : Point) ⟨0, 0, 0⟩ = 100 := by
    simp only [distSqFromCenter]
    norm_num
  have hd2 : distSqFromCenter (⟨10, 0, 0⟩ : Point) ⟨0, 0, 0⟩ = 100 := by
    simp only [distSqFromCenter]
    norm_num
  refine ⟨hne, ?_⟩
  have h := (claim_C1_los_decision_table ⟨-10, 0, 0⟩ ⟨10, 0, 0⟩ ⟨0, 0, 0⟩ 1 hne).2.2
    (by rw [hdisc]; norm_num)
    (Or.inl ⟨by rw [ht1]; norm_num, by rw [ht1]; norm_num⟩)
  exact h.2.1 ⟨by rw [hd1]; norm_num, by rw [hd2]; norm_num⟩

lemma losCoeffA_swap (p1 p2 : Point) : losCoeffA p2 p1 = losCoeffA p1 p2 := by
  unfold losCoeffA
  ring

lemma losCoeffB_swap (p1 p2 earthCenter : Point) :
    losCoeffB p2 p1 earthCenter = -(losCoeffB p1 p2 earthCenter) - 2 * losCoeffA p1 p2 := by
  unfold losCoeffB losCoeffA
  ring

lemma losDiscriminant_swap (p1 p2 earthCenter : Point) (earthRadius : ℝ) :
    losDiscriminant p2 p1 earthCenter earthRadius =
      losDiscriminant p1 p2 earthCenter earthRadius := by
  unfold losDiscriminant losCoeffA losCoeffB losCoeffC distSqFromCenter
  ring

lemma losCoeffA_pos_of_ne (p1 p2 : Point) (hne : p1 ≠ p2) : 0 < losCoeffA p1 p2 := by
  have h1 := mul_self_nonneg (p2.x - p1.x)
  have h2 := mul_self_nonneg (p2.y - p1.y)
  have h3 := mul_self_nonneg (p2.z - p1.z)
  rcases lt_or_eq_of_le (by unfold losCoeffA; linarith :
      (0 : ℝ) ≤ losCoeffA p1 p2) with h | h
  · exact h
  · exfalso
    apply hne
    have hx : p2.x - p1.x = 0 := by
      rw [← mul_self_eq_zero]
      unfold losCoeffA at h
      nlinarith
    have hy : p2.y - p1.y = 0 := by
      rw [← mul_self_eq_zero]
      unfold losCoeffA at h
      nlinarith
    have hz : p2.z - p1.z = 0 := by
      rw [← mul_self_eq_zero]
      unfold losCoeffA at h
      nlinarith
    cases p1
    cases p2
    simp only [CartesianVector.mk.injEq]
    simp only at hx hy hz
    exact ⟨by linarith, by linarith, by linarith⟩

lemma losT1_swap (p1 p2 earthCenter : Point) (earthRadius : ℝ)
    (ha : losCoeffA p1 p2 ≠ 0) :
    losT1 p2 p1 earthCenter earthRadius = 1 - losT2 p1 p2 earthCenter earthRadius := by
  unfold losT1 losT2
  rw [losCoeffB_swap p1 p2 earthCenter, losCoeffA_swap p1 p2,
    losDiscriminant_swap p1 p2 earthCenter earthRadius]
  field_simp
  ring

lemma losT2_swap (p1 p2 earthCenter : Point) (earthRadius : ℝ)
    (ha : losCoeffA p1 p2 ≠ 0) :
    losT2 p2 p1 earthCenter earthRadius = 1 - losT1 p1 p2 earthCenter earthRadius := by
  unfold losT1 losT2
  rw [losCoeffB_swap p1 p2 earthCenter, losCoeffA_swap p1 p2,
    losDiscriminant_swap p1 p2 earthCenter earthRadius]
  field_simp
  ring

lemma losInnerTable_comm (a b rSq : ℝ) : losInnerTable a b rSq = losInnerTable b a rSq := by
  unfold losInnerTable
  split_ifs <;> first | rfl | tauto

/-- Claim C7: `isLineOfSightClear` is symmetric in its two endpoints, for
every pair of points and every sphere. -/
theorem claim_C7_los_symmetric (p1 p2 earthCenter : Point) (earthRadius : ℝ) :
    isLineOfSightClear p1 p2 earthCenter earthRadius =
      isLineOfSightClear p2 p1 earthCenter earthRadius := by
  by_cases hne : p1 = p2
  · rw [hne]
  · have ha := (losCoeffA_pos_of_ne p1 p2 hne).ne'
    have h1 := losT1_swap p1 p2 earthCenter earthRadius ha
    have h2 := losT2_swap p1 p2 earthCenter earthRadius ha
    simp only [isLineOfSightClear]
    refine if_congr (by rw [losDiscriminant_swap]) rfl (if_congr ?_ ?_ rfl)
    · constructor
      · rintro (⟨u, v⟩ | ⟨u, v⟩)
        · right
          rw [h2]
          exact ⟨by linarith, by linarith⟩
        · left
          rw [h1]
          exact ⟨by linarith, by linarith⟩
      · rintro (⟨u, v⟩ | ⟨u, v⟩)
        · rw [h1] at u v
          right
          exact ⟨by linarith, by linarith⟩
        · rw [h2] at u v
          left
          exact ⟨by linarith, by linarith⟩
    · exact losInnerTable_comm _ _ _

section EngineLemmas

variable {V G : Type} (link : String → V → V → V → V → Bool) (prev : Finset String)
variable (t : ℚ) (b : PropResult V G)

lemma satStep_fold_connected (sats : List (String × PropOracle V G)) :
    ∀ a : StepAcc V G,
      (sats.foldl (satStep link prev t b) a).connected =
        sats.foldl (connectedFoldStep link t b) a.connected := by
  induction sats with
  | nil => intro a; rfl
  | cons sat rest ih =>
    intro a
    simp only [List.foldl_cons]
    rw [ih]
    congr 1
    cases h : sat.2 t with
    | none => simp [satStep, connectedFoldStep, h]
    | some ir =>
      cases hl : link sat.1 b.positionEci b.velocityEci ir.positionEci ir.velocityEci with
      | false => simp [satStep, connectedFoldStep, h, hl]
      | true =>
        by_cases hm : sat.1 ∈ prev <;> simp [satStep, connectedFoldStep, h, hl, hm]

lemma satStep_fold_handshakeLog (sats : List (String × PropOracle V G)) :
    ∀ a : StepAcc V G,
      (sats.foldl (satStep link prev t b) a).handshakeLog =
        a.handshakeLog ++ sats.filterMap (hsRecord link prev t b) := by
  induction sats with
  | nil => intro a; simp
  | cons sat rest ih =>
    intro a
    simp only [List.foldl_cons, List.filterMap_cons]
    cases h : sat.2 t with
    | none => simp [satStep, hsRecord, h, ih]
    | some ir =>
      cases hl : link sat.1 b.positionEci b.velocityEci ir.positionEci ir.velocityEci with
      | false => simp [satStep, hsRecord, h, hl, ih]
      | true =>
        by_cases hm : sat.1 ∈ prev
        · simp [satStep, hsRecord, h, hl, hm, ih]
        · simp [satStep, hsRecord, h, hl, hm, ih]

lemma satStep_fold_totalHandshakes (sats : List (String × PropOracle V G)) :
    ∀ a : StepAcc V G,
      (sats.foldl (satStep link prev t b) a).totalHandshakes =
        a.totalHandshakes + (sats.filterMap (hsRecord link prev t b)).length := by
  induction sats with
  | nil => intro a; simp
  | cons sat rest ih =>
    intro a
    simp only [List.foldl_cons, List.filterMap_cons]
    cases h : sat.2 t with
    | none => simp [satStep, hsRecord, h, ih]
    | some ir =>
      cases hl : link sat.1 b.positionEci b.velocityEci ir.positionEci ir.velocityEci with
      | false => simp [satStep, hsRecord, h, hl, ih]
      | true =>
        by_cases hm : sat.1 ∈ prev
        · simp [satStep, hsRecord, h, hl, hm, ih]
        · simp [satStep, hsRecord, h, hl, hm, ih]
          ring

lemma satStep_fold_inComm (sats : List (String × PropOracle V G)) :
    ∀ a : StepAcc V G,
      (sats.foldl (satStep link prev t b) a).inComm =
        (a.inComm || sats.any (linkNow link t b)) := by
  induction sats with
  | nil => intro a; simp
  | cons sat rest ih =>
    intro a
    simp only [List.foldl_cons, List.any_cons]
    cases h : sat.2 t with
    | none => simp [satStep, linkNow, h, ih]
    | some ir =>
      cases hl : link sat.1 b.positionEci b.velocityEci ir.positionEci ir.velocityEci with
      | false => simp [satStep, linkNow, h, hl, ih]
      | true =>
        by_cases hm : sat.1 ∈ prev <;>
          simp [satStep, linkNow, h, hl, hm, ih]

lemma connectedFold_mono (sats : List (String × PropOracle V G)) :
    ∀ acc : Finset String, acc ⊆ sats.foldl (connectedFoldStep link t b) acc := by
  induction sats with
  | nil => intro acc; exact Finset.Subset.refl acc
  | cons sat rest ih =>
    intro acc
    refine Finset.Subset.trans ?_ (ih (connectedFoldStep link t b acc sat))
    cases h : sat.2 t with
    | none => simp [connectedFoldStep, h]
    | some ir =>
      cases hl : link sat.1 b.positionEci b.velocityEci ir.positionEci ir.velocityEci with
      | false => simp [connectedFoldStep, h, hl]
      | true =>
        simp only [connectedFoldStep, h, hl]
        exact Finset.subset_insert sat.1 acc

lemma connectedFold_any_false (sats : List (String × PropOracle V G))
    (hany : sats.any (linkNow link t b) = false) :
    ∀ acc : Finset String, sats.foldl (connectedFoldStep link t b) acc = acc := by
  induction sats with
  | nil => intro acc; rfl
  | cons sat rest ih =>
    intro acc
    simp only [List.any_cons, Bool.or_eq_false_iff] at hany
    simp only [List.foldl_cons]
    rw [show connectedFoldStep link t b acc sat = acc from ?_, ih hany.2]
    cases h : sat.2 t with
    | none => simp [connectedFoldStep, h]
    | some ir =>
      have hl : link sat.1 b.positionEci b.velocityEci ir.positionEci ir.velocityEci = false := by
        have := hany.1
        simp [linkNow, h] at this
        exact this
      simp [connectedFoldStep, h, hl]

lemma connectedFold_nonempty_of_any (sats : List (String × PropOracle V G))
    (hany : sats.any (linkNow link t b) = true) :
    ∀ acc : Finset String, (sats.foldl (connectedFoldStep link t b) acc).Nonempty := by
  induction sats with
  | nil => simp at hany
  | cons sat rest ih =>
    intro acc
    simp only [List.any_cons, Bool.or_eq_true] at hany
    rcases hany with hl | hrest
    · cases h : sat.2 t with
      | none => simp [linkNow, h] at hl
      | some ir =>
        have hl2 : link sat.1 b.positionEci b.velocityEci ir.positionEci ir.velocityEci = true := by
          simpa [linkNow, h] using hl
        simp only [List.foldl_cons, connectedFoldStep, h, hl2, if_pos]
        exact Finset.Nonempty.mono
          (connectedFold_mono link t b rest (insert sat.1 acc))
          (Finset.insert_nonempty sat.1 acc)
    · simp only [List.foldl_cons]
      exact ih hrest (connectedFoldStep link t b acc sat)

lemma mem_connectedFold (sats : List (String × PropOracle V G))
    (sat : String × PropOracle V G) (hmem : sat ∈ sats) (ir : PropResult V G)
    (hprop : sat.2 t = some ir)
    (hl : link sat.1 b.positionEci b.velocityEci ir.positionEci ir.velocityEci = true) :
    ∀ acc : Finset String, sat.1 ∈ sats.foldl (connectedFoldStep link t b) acc := by
  induction sats with
  | nil => simp at hmem
  | cons sat0 rest ih =>
    intro acc
    rcases List.mem_cons.mp hmem with heq | htail
    · subst heq
      simp only [List.foldl_cons, connectedFoldStep, hprop, hl, if_pos]
      exact connectedFold_mono link t b rest _ (Finset.mem_insert_self sat.1 acc)
    · simp only [List.foldl_cons]
      exact ih htail _

end EngineLemmas

section StepLemmas

variable {V G : Type} (link : String → V → V → V → V → Bool)
variable (sats : List (String × PropOracle V G)) (bp : PropOracle V G)
variable (s : SimState V G) (t : ℚ) (b : PropResult V G)

lemma stepSim_none (h : bp t = none) : stepSim link sats bp s t = s := by
  simp [stepSim, h]

lemma stepSim_some_handshakeLog (h : bp t = some b) :
    (stepSim link sats bp s t).handshakeLog =
      s.handshakeLog ++
        sats.filterMap (hsRecord link s.previousConnectedIridiumSatIds t b) := by
  simp only [stepSim, h]
  rw [satStep_fold_handshakeLog]

lemma stepSim_some_totalHandshakes (h : bp t = some b) :
    (stepSim link sats bp s t).totalHandshakes =
      s.totalHandshakes +
        (sats.filterMap (hsRecord link s.previousConnectedIridiumSatIds t b)).length := by
  simp only [stepSim, h]
  rw [satStep_fold_totalHandshakes]

lemma stepSim_some_beaconTrack (h : bp t = some b) :
    (stepSim link sats bp s t).beaconTrack =
      s.beaconTrack ++ [⟨t, b.positionEci, b.velocityEci, b.positionGeodetic⟩] := by
  simp only [stepSim, h]

lemma stepSim_some_previousConnected (h : bp t = some b) :
    (stepSim link sats bp s t).previousConnectedIridiumSatIds =
      activeIdsAt link sats bp t := by
  simp only [stepSim, h, activeIdsAt]
  rw [satStep_fold_connected]

lemma stepSim_some_activeLinksLog (h : bp t = some b) :
    (stepSim link sats bp s t).activeLinksLog =
      s.activeLinksLog ++ [activeIdsAt link sats bp t] := by
  simp only [stepSim, h, activeIdsAt]
  rw [satStep_fold_connected]

lemma stepSim_some_blackout_inactive (h : bp t = some b)
    (hany : sats.any (linkNow link t b) = false) :
    (stepSim link sats bp s t).blackoutPeriods = s.blackoutPeriods ∧
    (stepSim link sats bp s t).currentBlackout =
      (match s.currentBlackout with
       | none => some t
       | some st => some st) := by
  simp only [stepSim, h, satStep_fold_inComm, Bool.false_or, hany]
  cases s.currentBlackout <;> simp

lemma stepSim_some_blackout_active (h : bp t = some b)
    (hany : sats.any (linkNow link t b) = true) :
    (stepSim link sats bp s t).currentBlackout = none ∧
    (stepSim link sats bp s t).blackoutPeriods =
      s.blackoutPeriods ++
        (match s.currentBlackout with
         | some st => [⟨st, t, (t - st) / 1000⟩]
         | none => []) := by
  simp only [stepSim, h, satStep_fold_inComm, Bool.false_or, hany]
  cases s.currentBlackout <;> simp

end StepLemmas

/-- Claim C2: for each Beacon-Iridium pair, a handshake record is appended at
an evaluated step exactly for the pairs whose link is active at the step and
that are absent from the active-link set of the previous evaluated step (the
inactive-to-active edge); every appended record's satellite id is in the
step's active-link set and was not previously active (so a link that stays
active across consecutive evaluated steps produces no additional record), and
the previous-active set carried into the next evaluated step is this step's
active-link set. -/
theorem claim_C2_handshake_edge {V G : Type} (link : String → V → V → V → V → Bool)
    (iridiumSats : List (String × PropOracle V G)) (beaconProp : PropOracle V G)
    (s : SimState V G) (t : ℚ) (b : PropResult V G) (h : beaconProp t = some b) :
    (stepSim link iridiumSats beaconProp s t).handshakeLog =
      s.handshakeLog ++
        iridiumSats.filterMap (hsRecord link s.previousConnectedIridiumSatIds t b) ∧
    (∀ rec ∈ iridiumSats.filterMap (hsRecord link s.previousConnectedIridiumSatIds t b),
      rec.iridiumSatelliteId ∈ activeIdsAt link iridiumSats beaconProp t ∧
      rec.iridiumSatelliteId ∉ s.previousConnectedIridiumSatIds) ∧
    (stepSim link iridiumSats beaconProp s t).previousConnectedIridiumSatIds =
      activeIdsAt link iridiumSats beaconProp t := by
  refine ⟨stepSim_some_handshakeLog link iridiumSats beaconProp s t b h, ?_,
    stepSim_some_previousConnected link iridiumSats beaconProp s t b h⟩
  intro rec hrec
  rcases List.mem_filterMap.mp hrec with ⟨sat, hsat, heq⟩
  cases hprop : sat.2 t with
  | none => simp [hsRecord, hprop] at heq
  | some ir =>
    simp only [hsRecord, hprop] at heq
    by_cases hcond :
        link sat.1 b.positionEci b.velocityEci ir.positionEci ir.velocityEci = true ∧
          sat.1 ∉ s.previousConnectedIridiumSatIds
    · rw [if_pos hcond] at heq
      have hid : rec.iridiumSatelliteId = sat.1 := by
        rw [← Option.some_injective _ heq]
      rw [hid]
      refine ⟨?_, hcond.2⟩
      simp only [activeIdsAt, h]
      exact mem_connectedFold link t b iridiumSats sat hsat ir hprop hcond.1 ∅
    · rw [if_neg hcond] at heq
      exact absurd heq (by simp)

/-- Witness for C2: a single always-propagating, always-linked satellite
produces exactly one handshake record on the first step. -/
theorem claim_C2_handshake_edge_witness :
    ((fun _ : ℚ => some (⟨(), (), ()⟩ : PropResult Unit Unit)) 0 =
      some (⟨(), (), ()⟩ : PropResult Unit Unit)) ∧
    (stepSim (fun _ _ _ _ _ => true) [("IRIDIUM 100", fun _ => some ⟨(), (), ()⟩)]
        (fun _ => some ⟨(), (), ()⟩) (initState Unit Unit) 0).handshakeLog =
      [⟨0, "IRIDIUM 100", (), ()⟩] := by
  refine ⟨rfl, ?_⟩
  rw [(claim_C2_handshake_edge (fun _ _ _ _ _ => true)
    [("IRIDIUM 100", fun _ => some ⟨(), (), ()⟩)] (fun _ => some ⟨(), (), ()⟩)
    (initState Unit Unit) 0 ⟨(), (), ()⟩ rfl).1]
  rfl

/-- Claim C9: a timestep at which Beacon propagation fails leaves the whole
accumulated simulation state unchanged (time advances outside the state), and
processing any later step from the post-skip state is the same as processing
it from the pre-skip state - in particular a pair that was active before the
skipped step and is active again at the next evaluated step emits no new
handshake across the gap. -/
theorem claim_C9_beacon_skip_frame {V G : Type} (link : String → V → V → V → V → Bool)
    (sats : List (String × PropOracle V G)) (bp : PropOracle V G)
    (s : SimState V G) (t tNext : ℚ) (h : bp t = none) :
    stepSim link sats bp s t = s ∧
    stepSim link sats bp (stepSim link sats bp s t) tNext = stepSim link sats bp s tNext := by
  have h1 : stepSim link sats bp s t = s := stepSim_none link sats bp s t h
  exact ⟨h1, by rw [h1]⟩

/-- Witness for C9 with an always-failing Beacon oracle. -/
theorem claim_C9_beacon_skip_frame_witness :
    ((fun _ : ℚ => (none : Option (PropResult Unit Unit))) 0 = none) ∧
    stepSim (fun _ _ _ _ _ => false) [] (fun _ => none) (initState Unit Unit) 0 =
      initState Unit Unit ∧
    stepSim (fun _ _ _ _ _ => false) [] (fun _ => none)
        (stepSim (fun _ _ _ _ _ => false) [] (fun _ => none) (initState Unit Unit) 0) 1 =
      stepSim (fun _ _ _ _ _ => false) [] (fun _ => none) (initState Unit Unit) 1 := by
  have h := claim_C9_beacon_skip_frame (fun _ _ _ _ _ => false) ([] : List (String × PropOracle Unit Unit))
    (fun _ => none) (initState Unit Unit) 0 1 rfl
  exact ⟨rfl, h.1, h.2⟩

lemma loop_track_correspondence {V G : Type} (link : String → V → V → V → V → Bool)
    (sats : List (String × PropOracle V G)) (bp : PropOracle V G) :
    ∀ (instants : List ℚ) (s : SimState V G),
      List.Forall₂
        (fun (bt : SatellitePosition V G) al => al = activeIdsAt link sats bp bt.timestamp)
        s.beaconTrack s.activeLinksLog →
      List.Forall₂
        (fun (bt : SatellitePosition V G) al => al = activeIdsAt link sats bp bt.timestamp)
        (instants.foldl (stepSim link sats bp) s).beaconTrack
        (instants.foldl (stepSim link sats bp) s).activeLinksLog := by
  intro instants
  induction instants with
  | nil => intro s h2; exact h2
  | cons t rest ih =>
    intro s h2
    simp only [List.foldl_cons]
    apply ih
    cases h : bp t with
    | none => rw [stepSim_none link sats bp s t h]; exact h2
    | some b =>
      rw [stepSim_some_beaconTrack link sats bp s t b h,
        stepSim_some_activeLinksLog link sats bp s t b h]
      exact List.rel_append h2 (List.Forall₂.cons rfl List.Forall₂.nil)

/-- Claim C3: after every completed run, `beaconTrack` and `activeLinksLog`
have the same length and `activeLinksLog[i]` is exactly the set of Iridium ids
whose link is active at the instant `beaconTrack[i].timestamp`; the
correspondence survives skipped timesteps (a skipped step appends to neither
array), and all result arrays are present by construction of
`SimulationResults` (possibly empty). -/
theorem claim_C3_track_links_correspondence {V G : Type}
    (link : String → V → V → V → V → Bool) (bp : PropOracle V G)
    (sats : List (String × PropOracle V G)) (config : SimulationConfig) (startMs : ℚ) :
    (runSimulationWith link bp sats config startMs).beaconTrack.length =
      (runSimulationWith link bp sats config startMs).activeLinksLog.length ∧
    List.Forall₂
      (fun (bt : SatellitePosition V G) al => al = activeIdsAt link sats bp bt.timestamp)
      (runSimulationWith link bp sats config startMs).beaconTrack
      (runSimulationWith link bp sats config startMs).activeLinksLog := by
  have key := loop_track_correspondence link sats bp
    (simInstants startMs (config.simulationDurationHours * 60 * 60 * 1000)
      (config.simulationTimeStepSec * 1000))
    (initState V G) List.Forall₂.nil
  have hbt : (runSimulationWith link bp sats config startMs).beaconTrack =
      ((simInstants startMs (config.simulationDurationHours * 60 * 60 * 1000)
        (config.simulationTimeStepSec * 1000)).foldl (stepSim link sats bp)
        (initState V G)).beaconTrack := rfl
  have hal : (runSimulationWith link bp sats config startMs).activeLinksLog =
      ((simInstants startMs (config.simulationDurationHours * 60 * 60 * 1000)
        (config.simulationTimeStepSec * 1000)).foldl (stepSim link sats bp)
        (initState V G)).activeLinksLog := rfl
  rw [hbt, hal]
  exact ⟨List.Forall₂.length_eq key, key⟩

lemma loop_totals_invariant {V G : Type} (link : String → V → V → V → V → Bool)
    (sats : List (String × PropOracle V G)) (bp : PropOracle V G) :
    ∀ (instants : List ℚ) (s : SimState V G),
      s.totalHandshakes = s.handshakeLog.length →
      (∀ p ∈ s.blackoutPeriods, p.duration = (p.endTime - p.startTime) / 1000) →
      ((instants.foldl (stepSim link sats bp) s).totalHandshakes =
        (instants.foldl (stepSim link sats bp) s).handshakeLog.length ∧
       ∀ p ∈ (instants.foldl (stepSim link sats bp) s).blackoutPeriods,
        p.duration = (p.endTime - p.startTime) / 1000) := by
  intro instants
  induction instants with
  | nil => intro s h1 h2; exact ⟨h1, h2⟩
  | cons t rest ih =>
    intro s h1 h2
    simp only [List.foldl_cons]
    apply ih
    · cases h : bp t with
      | none => rw [stepSim_none link sats bp s t h]; exact h1
      | some b =>
        rw [stepSim_some_totalHandshakes link sats bp s t b h,
          stepSim_some_handshakeLog link sats bp s t b h, List.length_append, h1]
    · cases h : bp t with
      | none => rw [stepSim_none link sats bp s t h]; exact h2
      | some b =>
        cases hany : sats.any (linkNow link t b) with
        | false =>
          rw [(stepSim_some_blackout_inactive link sats bp s t b h hany).1]
          exact h2
        | true =>
          rw [(stepSim_some_blackout_active link sats bp s t b h hany).2]
          intro p hp
          rcases List.mem_append.mp hp with hp | hp
          · exact h2 p hp
          · cases hcb : s.currentBlackout with
            | none => rw [hcb] at hp; simp at hp
            | some st =>
              rw [hcb] at hp
              simp only [List.mem_singleton] at hp
              rw [hp]

lemma foldl_add_duration (l : List BlackoutPeriod) :
    ∀ x : ℚ, l.foldl (fun acc p => acc + p.duration) x =
      x + (l.map BlackoutPeriod.duration).sum := by
  induction l with
  | nil => intro x; simp
  | cons p rest ih =>
    intro x
    simp only [List.foldl_cons, List.map_cons, List.sum_cons, ih]
    ring

/-- Claim C10: every `SimulationResults` value assembled by the engine is
internally consistent: `totalHandshakes` equals the handshake log's length,
`numberOfBlackouts` equals the number of blackout periods,
`totalBlackoutDuration` is the sum of the periods' durations,
`averageBlackoutDuration` is `total / count` when the count is positive and 0
otherwise, and every period satisfies
`duration = (endTime - startTime) / 1000`. -/
theorem claim_C10_results_consistency {V G : Type}
    (link : String → V → V → V → V → Bool) (bp : PropOracle V G)
    (sats : List (String × PropOracle V G)) (config : SimulationConfig) (startMs : ℚ) :
    (runSimulationWith link bp sats config startMs).totalHandshakes =
      (runSimulationWith link bp sats config startMs).handshakeLog.length ∧
    (runSimulationWith link bp sats config startMs).numberOfBlackouts =
      (runSimulationWith link bp sats config startMs).blackoutPeriods.length ∧
    (runSimulationWith link bp sats config startMs).totalBlackoutDuration =
      ((runSimulationWith link bp sats config startMs).blackoutPeriods.map
        BlackoutPeriod.duration).sum ∧
    (runSimulationWith link bp sats config startMs).averageBlackoutDuration =
      (if 0 < (runSimulationWith link bp sats config startMs).numberOfBlackouts then
        (runSimulationWith link bp sats config startMs).totalBlackoutDuration /
          ((runSimulationWith link bp sats config startMs).numberOfBlackouts : ℚ)
      else 0) ∧
    ((runSimulationWith link bp sats config startMs).blackoutPeriods.all
      (fun p => decide (p.duration = (p.endTime - p.startTime) / 1000))) = true := by
  have key := loop_totals_invariant link sats bp
    (simInstants startMs (config.simulationDurationHours * 60 * 60 * 1000)
      (config.simulationTimeStepSec * 1000))
    (initState V G) rfl (by intro p hp; simp [initState] at hp)
  refine ⟨key.1, rfl, ?_, rfl, ?_⟩
  · rw [show (runSimulationWith link bp sats config startMs).totalBlackoutDuration =
        ((runSimulationWith link bp sats config startMs).blackoutPeriods).foldl
          (fun acc p => acc + p.duration) 0 from rfl]
    rw [foldl_add_duration, zero_add]
  simp only [List.all_eq_true, decide_eq_true_eq]
  intro p hp
  simp only [runSimulationWith] at hp
  rcases hcb : ((simInstants startMs (config.simulationDurationHours * 60 * 60 * 1000)
      (config.simulationTimeStepSec * 1000)).foldl (stepSim link sats bp)
      (initState V G)).currentBlackout with _ | st
  · rw [hcb] at hp
    exact key.2 p hp
  · rw [hcb] at hp
    rcases List.mem_append.mp hp with hp2 | hp2
    · exact key.2 p hp2
    · simp only [List.mem_singleton] at hp2
      rw [hp2]

/-- Claim C4: `runSimulation` aborts (returns an error) exactly when the
Beacon record is missing (synthesis/initialization failed) or the Iridium TLE
source yields zero usable records after parsing and initialization; a Beacon
propagation failure at a step skips the whole step without touching the
state, and a propagation failure of one Iridium satellite at a step is
equivalent to that satellite being absent for that step (the others are still
evaluated); neither per-step failure can abort the run. -/
theorem claim_C4_abort_conditions {V G : Type} (link : String → V → V → V → V → Bool)
    (beaconSatRec : Option (PropOracle V G)) (iridiumTLEs : List TLE)
    (initTLE : TLE → Option (PropOracle V G)) (config : SimulationConfig)
    (startMs : ℚ) :
    ((∃ msg, runSimulation link beaconSatRec iridiumTLEs initTLE config startMs =
        Except.error msg) ↔
      (beaconSatRec = none ∨
        iridiumTLEs.filterMap
          (fun tle => (initTLE tle).map (fun rec => (tle.name, rec))) = [])) ∧
    (∀ (sats : List (String × PropOracle V G)) (bp : PropOracle V G)
      (s : SimState V G) (t : ℚ),
      bp t = none → stepSim link sats bp s t = s) ∧
    (∀ (pre post : List (String × PropOracle V G)) (id : String)
      (p : PropOracle V G) (bp : PropOracle V G) (s : SimState V G) (t : ℚ),
      p t = none →
      stepSim link (pre ++ (id, p) :: post) bp s t =
        stepSim link (pre ++ post) bp s t) := by
  refine ⟨?_, fun sats bp s t h => stepSim_none link sats bp s t h, ?_⟩
  · cases beaconSatRec with
    | none => simp [runSimulation]
    | some bprop =>
      simp only [runSimulation]
      cases hempty : iridiumTLEs.isEmpty with
      | true =>
        rw [List.isEmpty_iff] at hempty
        simp [hempty]
      | false =>
        rw [if_neg (by simp [hempty])]
        cases hrecs : (iridiumTLEs.filterMap
            (fun tle => (initTLE tle).map (fun rec => (tle.name, rec)))).isEmpty with
        | true =>
          rw [List.isEmpty_iff] at hrecs
          simp [hrecs]
        | false =>
          rw [if_neg (by simp [hrecs])]
          have hne : iridiumTLEs.filterMap
              (fun tle => (initTLE tle).map (fun rec => (tle.name, rec))) ≠ [] := by
            intro hnil
            rw [hnil] at hrecs
            simp at hrecs
          simp [hne]
  · intro pre post id p bp s t hp
    cases hb : bp t with
    | none =>
      rw [stepSim_none link _ bp s t hb, stepSim_none link _ bp s t hb]
    | some b =>
      have hfold : ∀ a : StepAcc V G,
          (pre ++ (id, p) :: post).foldl
            (satStep link s.previousConnectedIridiumSatIds t b) a =
          (pre ++ post).foldl (satStep link s.previousConnectedIridiumSatIds t b) a := by
        intro a
        rw [List.foldl_append, List.foldl_append, List.foldl_cons]
        congr 1
        simp [satStep, hp]
      simp only [stepSim, hb]
      rw [hfold]

/-- Witness for C4: a missing Beacon record aborts, and a step processed with
a propagation-failing Iridium satellite equals the step without it. -/
theorem claim_C4_abort_conditions_witness :
    ((fun _ : ℚ => (none : Option (PropResult Unit Unit))) 0 = none) ∧
    stepSim (fun _ _ _ _ _ => false) ([] ++ ("IR", fun _ => none) :: [])
        (fun _ => some ⟨(), (), ()⟩) (initState Unit Unit) 0 =
      stepSim (fun _ _ _ _ _ => false) ([] ++ [])
        (fun _ => some ⟨(), (), ()⟩) (initState Unit Unit) 0 ∧
    (∃ msg, runSimulation (V := Unit) (G := Unit) (fun _ _ _ _ _ => false) none []
        (fun _ => none) ⟨62, 62, 0, 60, HandshakeMode.oneWay⟩ 0 = Except.error msg) := by
  have h := claim_C4_abort_conditions (V := Unit) (G := Unit) (fun _ _ _ _ _ => false)
    none [] (fun _ => none) ⟨62, 62, 0, 60, HandshakeMode.oneWay⟩ 0
  exact ⟨rfl,
    h.2.2 [] [] "IR" (fun _ => none) (fun _ => some ⟨(), (), ()⟩) (initState Unit Unit) 0 rfl,
    h.1.mpr (Or.inl rfl)⟩

section NoLinkLemmas

variable {V G : Type} (link : String → V → V → V → V → Bool)
variable (sats : List (String × PropOracle V G)) (bp : PropOracle V G)

lemma any_false_of_activeIds_empty (t : ℚ) (b : PropResult V G)
    (h : bp t = some b) (hempty : activeIdsAt link sats bp t = ∅) :
    sats.any (linkNow link t b) = false := by
  cases hany : sats.any (linkNow link t b) with
  | false => rfl
  | true =>
    exfalso
    have hne := connectedFold_nonempty_of_any link t b sats hany ∅
    simp only [activeIdsAt, h] at hempty
    rw [hempty] at hne
    exact Finset.not_nonempty_empty hne

lemma filterMap_hsRecord_nil (prev : Finset String) (t : ℚ) (b : PropResult V G)
    (hany : sats.any (linkNow link t b) = false) :
    sats.filterMap (hsRecord link prev t b) = [] := by
  induction sats with
  | nil => rfl
  | cons sat rest ih =>
    simp only [List.any_cons, Bool.or_eq_false_iff] at hany
    simp only [List.filterMap_cons]
    have hnone : hsRecord link prev t b sat = none := by
      cases h : sat.2 t with
      | none => simp [hsRecord, h]
      | some ir =>
        have hl : link sat.1 b.positionEci b.velocityEci ir.positionEci ir.velocityEci
            = false := by
          have := hany.1
          simpa [linkNow, h] using this
        simp [hsRecord, h, hl]
    rw [hnone, ih hany.2]

lemma loop_nolink (instants : List ℚ)
    (hbeacon : ∀ t ∈ instants, (bp t).isSome = true)
    (hnolink : ∀ t ∈ instants, activeIdsAt link sats bp t = ∅) :
    ∀ (s : SimState V G) (st : ℚ),
      s.totalHandshakes = 0 → s.handshakeLog = [] → s.blackoutPeriods = [] →
      s.currentBlackout = some st →
      ((instants.foldl (stepSim link sats bp) s).totalHandshakes = 0 ∧
       (instants.foldl (stepSim link sats bp) s).handshakeLog = [] ∧
       (instants.foldl (stepSim link sats bp) s).blackoutPeriods = [] ∧
       (instants.foldl (stepSim link sats bp) s).currentBlackout = some st) := by
  induction instants with
  | nil =>
    intro s st h1 h2 h3 h4
    exact ⟨h1, h2, h3, h4⟩
  | cons t rest ih =>
    intro s st h1 h2 h3 h4
    obtain ⟨b, hb⟩ := Option.isSome_iff_exists.mp (hbeacon t (List.mem_cons_self t rest))
    have hany := any_false_of_activeIds_empty link sats bp t b hb
      (hnolink t (List.mem_cons_self t rest))
    have hfm := filterMap_hsRecord_nil link sats
      s.previousConnectedIridiumSatIds t b hany
    have hblack := stepSim_some_blackout_inactive link sats bp s t b hb hany
    have hbRest : ∀ u ∈ rest, (bp u).isSome = true :=
      fun u hu => hbeacon u (List.mem_cons_of_mem t hu)
    have hnRest : ∀ u ∈ rest, activeIdsAt link sats bp u = ∅ :=
      fun u hu => hnolink u (List.mem_cons_of_mem t hu)
    simp only [List.foldl_cons]
    exact ih hbRest hnRest (stepSim link sats bp s t) st
      (by rw [stepSim_some_totalHandshakes link sats bp s t b hb, hfm, h1]; rfl)
      (by rw [stepSim_some_handshakeLog link sats bp s t b hb, hfm, h2]; rfl)
      (by rw [hblack.1, h3])
      (by rw [hblack.2, h4])

end NoLinkLemmas

lemma simInstants_cons (startMs durationMs timeStepMs : ℚ)
    (hstep : 0 < timeStepMs) (hdur : 0 ≤ durationMs) :
    ∃ tail, simInstants startMs durationMs timeStepMs = startMs :: tail := by
  have h0 : (0 : ℤ) ≤ ⌊durationMs / timeStepMs⌋ :=
    Int.floor_nonneg.mpr (div_nonneg hdur hstep.le)
  obtain ⟨m, hm⟩ : ∃ m : ℕ, (⌊durationMs / timeStepMs⌋ + 1).toNat = m + 1 := by
    refine ⟨⌊durationMs / timeStepMs⌋.toNat, ?_⟩
    omega
  refine ⟨((List.range m).map Nat.succ).map
    (fun (k : ℕ) => startMs + (k : ℚ) * timeStepMs), ?_⟩
  rw [simInstants, if_pos hstep, hm, List.range_succ_eq_map, List.map_cons, List.map_map]
  simp

lemma mem_simInstants (startMs durationMs timeStepMs : ℚ) (hstep : 0 < timeStepMs)
    (u : ℚ) :
    u ∈ simInstants startMs durationMs timeStepMs ↔
      ∃ k : ℕ, u = startMs + (k : ℚ) * timeStepMs ∧ u ≤ startMs + durationMs := by
  rw [simInstants, if_pos hstep]
  simp only [List.mem_map, List.mem_range]
  constructor
  · rintro ⟨k, hk, rfl⟩
    refine ⟨k, rfl, ?_⟩
    have hk2 : (k : ℤ) ≤ ⌊durationMs / timeStepMs⌋ := by omega
    have hk3 : (k : ℚ) ≤ durationMs / timeStepMs := by
      have := Int.le_floor.mp hk2
      exact_mod_cast this
    have hk4 := (le_div_iff hstep).mp hk3
    linarith
  · rintro ⟨k, rfl, hle⟩
    refine ⟨k, ?_, rfl⟩
    have h1 : (k : ℚ) * timeStepMs ≤ durationMs := by linarith
    have h2 : (k : ℚ) ≤ durationMs / timeStepMs := (le_div_iff hstep).mpr h1
    have h3 : (k : ℤ) ≤ ⌊durationMs / timeStepMs⌋ := Int.le_floor.mpr (by exact_mod_cast h2)
    omega

lemma runSimulationWith_nolink {V G : Type} (link : String → V → V → V → V → Bool)
    (bp : PropOracle V G) (sats : List (String × PropOracle V G))
    (config : SimulationConfig) (startMs : ℚ)
    (hstep : 0 < config.simulationTimeStepSec)
    (hdur : 0 ≤ config.simulationDurationHours)
    (hbeacon : ∀ t ∈ simInstants startMs (config.simulationDurationHours * 60 * 60 * 1000)
      (config.simulationTimeStepSec * 1000), (bp t).isSome = true)
    (hnolink : ∀ t : ℚ, activeIdsAt link sats bp t = ∅) :
    (runSimulationWith link bp sats config startMs).totalHandshakes = 0 ∧
    (runSimulationWith link bp sats config startMs).handshakeLog = [] ∧
    (runSimulationWith link bp sats config startMs).blackoutPeriods =
      [⟨startMs,
        startMs + ((simInstants startMs (config.simulationDurationHours * 60 * 60 * 1000)
            (config.simulationTimeStepSec * 1000)).length : ℚ) *
          (config.simulationTimeStepSec * 1000),
        ((simInstants startMs (config.simulationDurationHours * 60 * 60 * 1000)
            (config.simulationTimeStepSec * 1000)).length : ℚ) *
          config.simulationTimeStepSec⟩] ∧
    (runSimulationWith link bp sats config startMs).numberOfBlackouts = 1 ∧
    (runSimulationWith link bp sats config startMs).totalBlackoutDuration =
      ((simInstants startMs (config.simulationDurationHours * 60 * 60 * 1000)
          (config.simulationTimeStepSec * 1000)).length : ℚ) *
        config.simulationTimeStepSec := by
  have hstepMs : 0 < config.simulationTimeStepSec * 1000 := by linarith
  have hdurMs : 0 ≤ config.simulationDurationHours * 60 * 60 * 1000 := by linarith
  obtain ⟨tail, htail⟩ := simInstants_cons startMs
    (config.simulationDurationHours * 60 * 60 * 1000)
    (config.simulationTimeStepSec * 1000) hstepMs hdurMs
  have hmem0 : startMs ∈ simInstants startMs
      (config.simulationDurationHours * 60 * 60 * 1000)
      (config.simulationTimeStepSec * 1000) := by
    rw [htail]
    exact List.mem_cons_self startMs tail
  obtain ⟨b, hb⟩ := Option.isSome_iff_exists.mp (hbeacon startMs hmem0)
  have hany := any_false_of_activeIds_empty link sats bp startMs b hb (hnolink startMs)
  have hfm := filterMap_hsRecord_nil link sats
    (initState V G).previousConnectedIridiumSatIds startMs b hany
  have hblack := stepSim_some_blackout_inactive link sats bp (initState V G) startMs b hb hany
  have hbTail : ∀ u ∈ tail, (bp u).isSome = true := by
    intro u hu
    exact hbeacon u (by rw [htail]; exact List.mem_cons_of_mem startMs hu)
  have hnTail : ∀ u ∈ tail, activeIdsAt link sats bp u = ∅ := fun u _ => hnolink u
  have key := loop_nolink link sats bp tail hbTail hnTail
    (stepSim link sats bp (initState V G) startMs) startMs
    (by rw [stepSim_some_totalHandshakes link sats bp (initState V G) startMs b hb, hfm]; rfl)
    (by rw [stepSim_some_handshakeLog link sats bp (initState V G) startMs b hb, hfm]; rfl)
    (by rw [hblack.1]; rfl)
    (by rw [hblack.2]; rfl)
  have hF : (simInstants startMs (config.simulationDurationHours * 60 * 60 * 1000)
        (config.simulationTimeStepSec * 1000)).foldl (stepSim link sats bp) (initState V G) =
      tail.foldl (stepSim link sats bp) (stepSim link sats bp (initState V G) startMs) := by
    rw [htail, List.foldl_cons]
  have hth := hF ▸ key.1
  have hlog := hF ▸ key.2.1
  have hbps := hF ▸ key.2.2.1
  have hcb := hF ▸ key.2.2.2
  have harith : ∀ Nq : ℚ,
      (startMs + Nq * (config.simulationTimeStepSec * 1000) - startMs) / 1000 =
        Nq * config.simulationTimeStepSec := by
    intro Nq
    field_simp
    ring
  refine ⟨hth, hlog, ?_, ?_, ?_⟩
  · simp only [runSimulationWith, hcb, hbps]
    simp only [List.nil_append, List.cons.injEq, and_true]
    simp only [BlackoutPeriod.mk.injEq, true_and]
    exact harith _
  · simp only [runSimulationWith, hcb, hbps]
    simp
  · simp only [runSimulationWith, hcb, hbps]
    simp only [List.nil_append, List.foldl_cons, List.foldl_nil, zero_add]
    exact harith _

/-- Claim C5 (amended): for any run with a positive timestep, nonnegative
duration, the Beacon propagating at every iterated instant and no link ever
active, the loop iterates exactly the instants `start + k*step` with
`current ≤ start + duration` inclusive (first conjunct); the results contain
zero handshakes, and exactly one blackout period spanning from the start
instant to one step after the loop's last iterated instant, so with N loop
iterations `totalBlackoutDuration = N * simulationTimeStepSec` seconds (which
exceeds `simulationDurationHours * 3600` by one timestep when the step
divides the duration). -/
theorem claim_C5_no_link_run {V G : Type} (link : String → V → V → V → V → Bool)
    (bp : PropOracle V G) (sats : List (String × PropOracle V G))
    (config : SimulationConfig) (startMs : ℚ)
    (hstep : 0 < config.simulationTimeStepSec)
    (hdur : 0 ≤ config.simulationDurationHours)
    (hbeacon : ∀ t ∈ simInstants startMs (config.simulationDurationHours * 60 * 60 * 1000)
      (config.simulationTimeStepSec * 1000), (bp t).isSome = true)
    (hnolink : ∀ t : ℚ, activeIdsAt link sats bp t = ∅) :
    (∀ u : ℚ, u ∈ simInstants startMs (config.simulationDurationHours * 60 * 60 * 1000)
        (config.simulationTimeStepSec * 1000) ↔
      ∃ k : ℕ, u = startMs + (k : ℚ) * (config.simulationTimeStepSec * 1000) ∧
        u ≤ startMs + config.simulationDurationHours * 60 * 60 * 1000) ∧
    (runSimulationWith link bp sats config startMs).totalHandshakes = 0 ∧
    (runSimulationWith link bp sats config startMs).handshakeLog = [] ∧
    (runSimulationWith link bp sats config startMs).blackoutPeriods =
      [⟨startMs,
        startMs + ((simInstants startMs (config.simulationDurationHours * 60 * 60 * 1000)
            (config.simulationTimeStepSec * 1000)).length : ℚ) *
          (config.simulationTimeStepSec * 1000),
        ((simInstants startMs (config.simulationDurationHours * 60 * 60 * 1000)
            (config.simulationTimeStepSec * 1000)).length : ℚ) *
          config.simulationTimeStepSec⟩] ∧
    (runSimulationWith link bp sats config startMs).numberOfBlackouts = 1 ∧
    (runSimulationWith link bp sats config startMs).totalBlackoutDuration =
      ((simInstants startMs (config.simulationDurationHours * 60 * 60 * 1000)
          (config.simulationTimeStepSec * 1000)).length : ℚ) *
        config.simulationTimeStepSec :=
  ⟨fun u => mem_simInstants startMs (config.simulationDurationHours * 60 * 60 * 1000)
      (config.simulationTimeStepSec * 1000) (by linarith) u,
   runSimulationWith_nolink link bp sats config startMs hstep hdur hbeacon hnolink⟩

/-- Witness for the amended C5: a zero-duration run (one iterated instant)
with an always-failing Iridium oracle has one blackout of one timestep. -/
theorem claim_C5_no_link_run_witness :
    ((0 : ℚ) < (⟨1, 62, 0, 60, HandshakeMode.oneWay⟩ :
        SimulationConfig).simulationTimeStepSec ∧
      (0 : ℚ) ≤ (⟨1, 62, 0, 60, HandshakeMode.oneWay⟩ :
        SimulationConfig).simulationDurationHours ∧
      (∀ t : ℚ, activeIdsAt (V := Unit) (G := Unit) (fun _ _ _ _ _ => false)
        [("IRIDIUM 1", fun _ => none)] (fun _ => some ⟨(), (), ()⟩) t = ∅)) ∧
    (runSimulationWith (V := Unit) (G := Unit) (fun _ _ _ _ _ => false)
        (fun _ => some ⟨(), (), ()⟩) [("IRIDIUM 1", fun _ => none)]
        ⟨1, 62, 0, 60, HandshakeMode.oneWay⟩ 0).totalHandshakes = 0 ∧
    (runSimulationWith (V := Unit) (G := Unit) (fun _ _ _ _ _ => false)
        (fun _ => some ⟨(), (), ()⟩) [("IRIDIUM 1", fun _ => none)]
        ⟨1, 62, 0, 60, HandshakeMode.oneWay⟩ 0).totalBlackoutDuration = 60 := by
  have h := claim_C5_no_link_run (V := Unit) (G := Unit) (fun _ _ _ _ _ => false)
    (fun _ => some ⟨(), (), ()⟩) [("IRIDIUM 1", fun _ => none)]
    ⟨1, 62, 0, 60, HandshakeMode.oneWay⟩ 0
    (by norm_num) (by norm_num) (fun t _ => rfl) (fun t => rfl)
  have hlen : ((simInstants 0
      ((⟨1, 62, 0, 60, HandshakeMode.oneWay⟩ :
        SimulationConfig).simulationDurationHours * 60 * 60 * 1000)
      ((⟨1, 62, 0, 60, HandshakeMode.oneWay⟩ :
        SimulationConfig).simulationTimeStepSec * 1000)).length : ℚ) = 1 := by
    rw [simInstants, if_pos (by norm_num)]
    rw [List.length_map, List.length_range]
    norm_num [Int.toNat_ofNat]
  refine ⟨⟨by norm_num, by norm_num, fun t => rfl⟩, h.2.1, ?_⟩
  rw [h.2.2.2.2.2, hlen]
  norm_num

/-- Counterexample to C5 as stated: in the claim's own scenario (duration 1 h,
step 60 s, no link ever active at any evaluated step) the code yields
`totalBlackoutDuration = 3660`, not `simulationDurationHours * 3600 = 3600`:
the inclusive loop iterates 61 instants and the still-open blackout is closed
one step after the last iterated instant. -/
theorem claim_C5_counterexample :
    (∀ t : ℚ, activeIdsAt (V := Unit) (G := Unit) (fun _ _ _ _ _ => false)
      [("IRIDIUM 1", fun _ => none)] (fun _ => some ⟨(), (), ()⟩) t = ∅) ∧
    (runSimulationWith (V := Unit) (G := Unit) (fun _ _ _ _ _ => false)
        (fun _ => some ⟨(), (), ()⟩) [("IRIDIUM 1", fun _ => none)]
        ⟨1, 62, 1, 60, HandshakeMode.oneWay⟩ 0).totalHandshakes = 0 ∧
    (runSimulationWith (V := Unit) (G := Unit) (fun _ _ _ _ _ => false)
        (fun _ => some ⟨(), (), ()⟩) [("IRIDIUM 1", fun _ => none)]
        ⟨1, 62, 1, 60, HandshakeMode.oneWay⟩ 0).totalBlackoutDuration = 3660 ∧
    ¬((runSimulationWith (V := Unit) (G := Unit) (fun _ _ _ _ _ => false)
        (fun _ => some ⟨(), (), ()⟩) [("IRIDIUM 1", fun _ => none)]
        ⟨1, 62, 1, 60, HandshakeMode.oneWay⟩ 0).totalBlackoutDuration =
      (⟨1, 62, 1, 60, HandshakeMode.oneWay⟩ :
        SimulationConfig).simulationDurationHours * 3600) := by
  have h := runSimulationWith_nolink (V := Unit) (G := Unit) (fun _ _ _ _ _ => false)
    (fun _ => some ⟨(), (), ()⟩) [("IRIDIUM 1", fun _ => none)]
    ⟨1, 62, 1, 60, HandshakeMode.oneWay⟩ 0
    (by norm_num) (by norm_num) (fun t _ => rfl) (fun t => rfl)
  have hlen : ((simInstants 0
      ((⟨1, 62, 1, 60, HandshakeMode.oneWay⟩ :
        SimulationConfig).simulationDurationHours * 60 * 60 * 1000)
      ((⟨1, 62, 1, 60, HandshakeMode.oneWay⟩ :
        SimulationConfig).simulationTimeStepSec * 1000)).length : ℚ) = 61 := by
    rw [simInstants, if_pos (by norm_num)]
    rw [List.length_map, List.length_range]
    norm_num [Int.toNat_ofNat]
    try { rw [show Int.toNat 61 = 61 from rfl]; norm_num }
  have htot : (runSimulationWith (V := Unit) (G := Unit) (fun _ _ _ _ _ => false)
      (fun _ => some ⟨(), (), ()⟩) [("IRIDIUM 1", fun _ => none)]
      ⟨1, 62, 1, 60, HandshakeMode.oneWay⟩ 0).totalBlackoutDuration = 3660 := by
    rw [h.2.2.2.2, hlen]
    norm_num
  refine ⟨fun t => rfl, h.1, htot, ?_⟩
  rw [htot]
  norm_num

end Satviz
